import Mathlib

/-!
Verification development for the collaborative e-book reader server.

The definitions below are a shallow embedding of the server code:
the quota configuration module (backend/src/config/limits.js) and the
Express + socket event handlers of the main server file.  Database rows
are modelled as lists and option-valued cells; asynchronous callbacks
are modelled either as whole-operation functions (when no other
operation interleaves) or as an explicit small-step machine (for the
join-session race).  All machine integers stay well inside 2^53, so
Nat and Int are used directly.
-/

namespace EbookReader

/-! ### Quota configuration (backend/src/config/limits.js) -/

structure HighlightLimits where
  MAX_PER_USER_PER_BOOK : Nat
  MAX_PER_PAGE : Nat
  MIN_TEXT_LENGTH : Nat
  MAX_TEXT_LENGTH : Nat
deriving DecidableEq, Repr

structure CommentLimits where
  MAX_PER_HIGHLIGHT : Nat
  MAX_LENGTH_CHARS : Nat
  MIN_LENGTH_CHARS : Nat
  MAX_REPLY_DEPTH : Nat
deriving DecidableEq, Repr

structure ContentLimits where
  HIGHLIGHTS : HighlightLimits
  COMMENTS : CommentLimits
deriving DecidableEq, Repr

structure FileLimits where
  MAX_SIZE_MB : Nat
  MAX_SIZE_BYTES : Nat
  UPLOAD_TIMEOUT_MS : Nat
deriving DecidableEq, Repr

structure UserLimits where
  MAX_CONCURRENT_PER_SESSION : Nat
  SESSION_TIMEOUT_MINUTES : Nat
deriving DecidableEq, Repr

structure WebsocketLimits where
  MAX_MESSAGES_PER_SECOND : Nat
deriving DecidableEq, Repr

structure DatabaseLimits where
  QUERY_TIMEOUT_MS : Nat
deriving DecidableEq, Repr

structure PerformanceLimits where
  WEBSOCKET : WebsocketLimits
  DATABASE : DatabaseLimits
deriving DecidableEq, Repr

structure Limits where
  FILE : FileLimits
  USER : UserLimits
  CONTENT : ContentLimits
  PERFORMANCE : PerformanceLimits
deriving DecidableEq, Repr

/-- The MVP_LIMITS object (the fields the handlers and validators read). -/
def MVP_LIMITS : Limits :=
  { FILE := { MAX_SIZE_MB := 25, MAX_SIZE_BYTES := 25 * 1024 * 1024, UPLOAD_TIMEOUT_MS := 60000 }
  , USER := { MAX_CONCURRENT_PER_SESSION := 5, SESSION_TIMEOUT_MINUTES := 30 }
  , CONTENT :=
      { HIGHLIGHTS :=
          { MAX_PER_USER_PER_BOOK := 100, MAX_PER_PAGE := 50
          , MIN_TEXT_LENGTH := 1, MAX_TEXT_LENGTH := 1000 }
      , COMMENTS :=
          { MAX_PER_HIGHLIGHT := 5, MAX_LENGTH_CHARS := 500
          , MIN_LENGTH_CHARS := 1, MAX_REPLY_DEPTH := 2 } }
  , PERFORMANCE :=
      { WEBSOCKET := { MAX_MESSAGES_PER_SECOND := 10 }
      , DATABASE := { QUERY_TIMEOUT_MS := 5000 } } }

/-- Environment selector for getCurrentLimits; the constructor other covers
names with no entry in ENVIRONMENT_OVERRIDES (the JS code then falls back to
the empty override object). -/
inductive Env where
  | development
  | testing
  | production
  | other
deriving DecidableEq, Repr

/-- Effect of deep-merging ENVIRONMENT_OVERRIDES[environment] into the base
limits.  Each arm writes exactly the leaf keys the corresponding override
object contains; in particular the development override sets FILE.MAX_SIZE_MB
but never touches FILE.MAX_SIZE_BYTES. -/
def applyEnvironmentOverrides : Env → Limits → Limits
  | Env.development, base =>
      { base with
        FILE := { base.FILE with MAX_SIZE_MB := 50, UPLOAD_TIMEOUT_MS := 120000 }
      , USER := { base.USER with MAX_CONCURRENT_PER_SESSION := 10 }
      , PERFORMANCE :=
          { base.PERFORMANCE with
            DATABASE := { base.PERFORMANCE.DATABASE with QUERY_TIMEOUT_MS := 10000 } } }
  | Env.testing, base =>
      { base with
        FILE := { base.FILE with MAX_SIZE_MB := 10, UPLOAD_TIMEOUT_MS := 30000 }
      , USER := { base.USER with MAX_CONCURRENT_PER_SESSION := 3 }
      , CONTENT :=
          { base.CONTENT with
            HIGHLIGHTS := { base.CONTENT.HIGHLIGHTS with MAX_PER_USER_PER_BOOK := 10 } } }
  | Env.production, base => base
  | Env.other, base => base

/-- getCurrentLimits(environment): merge the environment override into a copy
of MVP_LIMITS. -/
def getCurrentLimits (environment : Env) : Limits :=
  applyEnvironmentOverrides environment MVP_LIMITS

/-- A call of getCurrentLimits() with no argument: the JS default parameter
value is the string for production. -/
def getCurrentLimitsNoArg : Limits :=
  getCurrentLimits Env.production

/-! ### LIMIT_VALIDATORS (each body calls getCurrentLimits with no argument) -/

def validateFileSize (fileSizeBytes : Nat) : Bool :=
  decide (fileSizeBytes ≤ getCurrentLimitsNoArg.FILE.MAX_SIZE_BYTES)

def validateUserCount (currentUserCount : Nat) : Bool :=
  decide (currentUserCount < getCurrentLimitsNoArg.USER.MAX_CONCURRENT_PER_SESSION)

def validateHighlightCount (userHighlightCount : Nat) : Bool :=
  decide (userHighlightCount < getCurrentLimitsNoArg.CONTENT.HIGHLIGHTS.MAX_PER_USER_PER_BOOK)

def validateCommentCount (highlightCommentCount : Nat) : Bool :=
  decide (highlightCommentCount < getCurrentLimitsNoArg.CONTENT.COMMENTS.MAX_PER_HIGHLIGHT)

def validateCommentLength (commentLength : Nat) : Bool :=
  decide (getCurrentLimitsNoArg.CONTENT.COMMENTS.MIN_LENGTH_CHARS ≤ commentLength ∧
    commentLength ≤ getCurrentLimitsNoArg.CONTENT.COMMENTS.MAX_LENGTH_CHARS)

def validateMessageRate (messagesPerSecond : Nat) : Bool :=
  decide (messagesPerSecond ≤ getCurrentLimitsNoArg.PERFORMANCE.WEBSOCKET.MAX_MESSAGES_PER_SECOND)

/-! ### Profile generator (generateUserProfile) -/

def adjectives : List String :=
  [("Cheerful"), ("Curious"), ("Witty"), ("Brave"), ("Clever"),
   ("Friendly"), ("Gentle"), ("Happy"), ("Kind"), ("Lively")]

def animals : List String :=
  [("Penguin"), ("Dolphin"), ("Elephant"), ("Giraffe"), ("Kangaroo"),
   ("Lion"), ("Owl"), ("Panda"), ("Tiger"), ("Zebra")]

def profileColors : List String :=
  [("#FF6B6B"), ("#4ECDC4"), ("#45B7D1"), ("#96CEB4"), ("#FFEAA7"),
   ("#DDA0DD"), ("#98D8C8"), ("#F7DC6F"), ("#BB8FCE"), ("#85C1E9")]

/-- generateUserProfile with the three Math.random draws made explicit as
indices (Math.floor(Math.random() * len) yields a value below len, modelled
by reducing the supplied index mod the list length). -/
def generateUserProfile (ri1 ri2 ri3 : Nat) : String × String :=
  (adjectives.getD (ri1 % adjectives.length) ("") ++ (" ") ++
     animals.getD (ri2 % animals.length) ("")
  , profileColors.getD (ri3 % profileColors.length) (""))

/-! ### Session registry state (sessions.user_count and the users table
restricted to one session id) -/

structure SessionState where
  user_count : Int
  roster : List String
deriving DecidableEq, Repr

inductive JoinResult where
  | sessionNotFound
  | sessionFull
  | admitted (userId : String)
deriving DecidableEq, Repr

/-- The join-session socket handler run to completion with no interleaved
operation on the same session: check user_count against the limit, then
INSERT the fresh user row and increment user_count. -/
def joinSessionAtomic (limits : Limits) (st : SessionState) (freshUserId : String) :
    SessionState × JoinResult :=
  if st.user_count ≥ (limits.USER.MAX_CONCURRENT_PER_SESSION : Int) then
    (st, JoinResult.sessionFull)
  else
    ({ user_count := st.user_count + 1, roster := freshUserId :: st.roster },
     JoinResult.admitted freshUserId)

/-- The disconnect handler: DELETE FROM users WHERE id = userId (every row
with that id is removed), and since a DELETE that matches no row is not an
error, the callback always runs UPDATE sessions SET user_count = user_count - 1. -/
def disconnectHandler (st : SessionState) (userId : String) : SessionState :=
  { user_count := st.user_count - 1
  , roster := st.roster.filter (fun u => u != userId) }

/-- Session states reachable from a fresh session by complete (uninterleaved)
join-session and disconnect handler runs.  A join always supplies a fresh
uuid, and a disconnect only ever fires for a socket that joined successfully
and has not yet disconnected, so its user id is still in the roster. -/
inductive Reachable (limits : Limits) : SessionState → Prop
  | init : Reachable limits { user_count := 0, roster := [] }
  | join (st : SessionState) (uid : String) (h : Reachable limits st)
      (hfresh : uid ∉ st.roster) :
      Reachable limits (joinSessionAtomic limits st uid).1
  | leave (st : SessionState) (uid : String) (h : Reachable limits st)
      (hmem : uid ∈ st.roster) :
      Reachable limits (disconnectHandler st uid)

/-! ### The join-session handler as a small-step machine.

The handler body is three asynchronous stages separated by suspension
points: the db.get callback performs the quota check on the count it read,
the INSERT adds the user row, and the INSERT callback issues the UPDATE
that increments user_count (the UPDATE itself is a single atomic SQL
read-modify-write).  Stages of logically concurrent join requests against
the same session may interleave freely on the event loop. -/

inductive ReqPhase where
  | arrived
  | checked
  | inserted
  | admitted
  | rejected
deriving DecidableEq, Repr

structure RaceState where
  session : SessionState
  phases : List ReqPhase
deriving DecidableEq, Repr

/-- Run the next pending stage of request i (uids lists the fresh uuid of
each request). -/
def joinStep (limits : Limits) (uids : List String) (rs : RaceState) (i : Nat) : RaceState :=
  match rs.phases.get? i, uids.get? i with
  | some ReqPhase.arrived, some _ =>
      if rs.session.user_count ≥ (limits.USER.MAX_CONCURRENT_PER_SESSION : Int) then
        { rs with phases := rs.phases.set i ReqPhase.rejected }
      else
        { rs with phases := rs.phases.set i ReqPhase.checked }
  | some ReqPhase.checked, some uid =>
      { session := { rs.session with roster := uid :: rs.session.roster }
      , phases := rs.phases.set i ReqPhase.inserted }
  | some ReqPhase.inserted, some _ =>
      { session := { rs.session with user_count := rs.session.user_count + 1 }
      , phases := rs.phases.set i ReqPhase.admitted }
  | _, _ => rs

def runJoinSchedule (limits : Limits) (uids : List String) (init : RaceState)
    (sched : List Nat) : RaceState :=
  sched.foldl (joinStep limits uids) init

/-- Two concurrent joins against a production session with exactly one free
slot (user_count = 4 of 5), with both quota checks scheduled before either
increment: the interleaving produced by the event loop when both db.get
callbacks run before the INSERT callbacks. -/
def joinRaceFinal : RaceState :=
  runJoinSchedule (getCurrentLimits Env.production) [("ua"), ("ub")]
    { session := { user_count := 4, roster := [("u1"), ("u2"), ("u3"), ("u4")] }
    , phases := [ReqPhase.arrived, ReqPhase.arrived] }
    [0, 1, 0, 0, 1, 1]

/-! ### Progress (POST /api/books/:bookId/progress and the update-progress
socket handler) -/

/-- First statement of the POST progress handler:
INSERT OR IGNORE a row with the reported progress (kept only if no row for
this (book, profile) id exists yet). -/
def insertOrIgnoreProgress (stored : Option Int) (p : Int) : Option Int :=
  match stored with
  | none => some p
  | some q => some q

/-- Second statement of the POST progress handler: UPDATE the row to the
reported progress (a no-op only when the row is absent). -/
def updateProgressRow (stored : Option Int) (p : Int) : Option Int :=
  match stored with
  | none => none
  | some _ => some p

/-- The whole POST /api/books/:bookId/progress write path for one
(book, profile) row: INSERT OR IGNORE, then unconditional UPDATE. -/
def postProgress (stored : Option Int) (p : Int) : Option Int :=
  updateProgressRow (insertOrIgnoreProgress stored p) p

/-- Stored value of the progress row after each report of the sequence. -/
def progressHistory (reports : List Int) (stored : Option Int) : List (Option Int) :=
  match reports with
  | [] => []
  | p :: rest =>
      let s := postProgress stored p
      s :: progressHistory rest s

/-- The update-progress socket handler: if the socket has joined a session it
relays the report to every peer in the room, with no comparison against any
previously reported position; otherwise it returns without effect. -/
def updateProgressSocket (currentUser : Option String) (currentSession : Option String)
    (percentage : Int) : Option (String × Int) :=
  match currentUser, currentSession with
  | some uid, some _ => some (uid, percentage)
  | _, _ => none

/-! ### Quota checks of the create-highlight and create-comment handlers.
Both run a SELECT COUNT query and then test (err || count >= limit) in a
single branch whose only outcome is one error event string. -/

def msgHighlightLimit : String := "Highlight limit reached"

def msgCommentLimit : String := "Comment limit reached"

/-- The create-highlight quota branch: the error event it emits, if any,
as a function of whether the COUNT query failed and the count it returned. -/
def highlightQuotaError (limits : Limits) (queryFailed : Bool) (count : Nat) :
    Option String :=
  if queryFailed = true ∨ count ≥ limits.CONTENT.HIGHLIGHTS.MAX_PER_USER_PER_BOOK then
    some msgHighlightLimit
  else
    none

/-- The create-comment quota branch, same shape with the per-highlight
comment limit. -/
def commentQuotaError (limits : Limits) (queryFailed : Bool) (count : Nat) :
    Option String :=
  if queryFailed = true ∨ count ≥ limits.CONTENT.COMMENTS.MAX_PER_HIGHLIGHT then
    some msgCommentLimit
  else
    none

/-! ### Comments (create-comment socket handler) -/

inductive CommentResult where
  | notConnected
  | lengthInvalid
  | limitReached
  | created (id : String) (parentId : Option String)
deriving DecidableEq, Repr

/-- The create-comment socket handler: guard on being joined, validate the
content length against the loaded limits, run the per-highlight count check,
then INSERT the comment with the given parent_id.  No other check is made;
in particular the depth of the parent comment is never queried. -/
def createCommentHandler (limits : Limits) (currentUser : Option String)
    (currentSession : Option String) (contentLength : Nat) (parentId : Option String)
    (highlightCommentCount : Nat) (queryFailed : Bool) (freshId : String) :
    CommentResult :=
  match currentUser, currentSession with
  | some _, some _ =>
      if contentLength < limits.CONTENT.COMMENTS.MIN_LENGTH_CHARS ∨
          contentLength > limits.CONTENT.COMMENTS.MAX_LENGTH_CHARS then
        CommentResult.lengthInvalid
      else if (commentQuotaError limits queryFailed highlightCommentCount).isSome then
        CommentResult.limitReached
      else
        CommentResult.created freshId parentId
  | _, _ => CommentResult.notConnected

/-- The comments table as (id, parent_id) rows. -/
def CommentTable : Type := List (String × Option String)

/-- Depth of a comment in the stored thread: 0 for a root comment, parent
depth plus one for a reply; fuel bounds the parent-chain walk. -/
def commentDepth (table : List (String × Option String)) :
    Nat → String → Option Nat
  | 0, _ => none
  | fuel + 1, cid =>
      match table.find? (fun e => e.1 == cid) with
      | none => none
      | some (_, none) => some 0
      | some (_, some pid) =>
          match commentDepth table fuel pid with
          | none => none
          | some d => some (d + 1)

/-- A root comment, a reply to it and a reply to the reply: depths 0, 1, 2. -/
def chainTable : List (String × Option String) :=
  [(("c0"), none), (("c1"), some ("c0")), (("c2"), some ("c1"))]

/-! ### Highlights (create-highlight socket handler of the main server and
the add-highlight socket handler of the second server file) -/

structure Emission where
  recipient : String
  event : String
  payload : String
deriving DecidableEq, Repr

def evError : String := "error"

def evHighlightCreated : String := "highlight-created"

def evHighlightAdded : String := "highlight-added"

def evHighlightConfirmed : String := "highlight-confirmed"

def msgFailedCreateHighlight : String := "Failed to create highlight"

/-- Events emitted by the create-highlight handler for a joined participant A:
on success it first acknowledges the originating socket with
highlight-created and then emits highlight-added to every other socket in
the session room (socket.to excludes the sender), all carrying the fresh
highlight id. -/
def createHighlightEmissions (limits : Limits) (A : String) (roster : List String)
    (userHighlightCount : Nat) (queryFailed : Bool) (insertFailed : Bool)
    (freshId : String) : List Emission :=
  if (highlightQuotaError limits queryFailed userHighlightCount).isSome then
    [{ recipient := A, event := evError, payload := msgHighlightLimit }]
  else if insertFailed = true then
    [{ recipient := A, event := evError, payload := msgFailedCreateHighlight }]
  else
    { recipient := A, event := evHighlightCreated, payload := freshId } ::
      (roster.filter (fun u => u != A)).map
        (fun u => { recipient := u, event := evHighlightAdded, payload := freshId })

def msgMaxHighlights : String := "Maximum highlights reached"

/-- Events emitted by the add-highlight handler of the second server file:
on success it emits highlight-added to every other socket in the book room
and then highlight-confirmed to the originator, with the same highlight. -/
def addHighlightEmissions (maxHighlightsPerUser : Nat) (A : String)
    (roster : List String) (userHighlightCount : Nat) (freshId : String) :
    List Emission :=
  if userHighlightCount ≥ maxHighlightsPerUser then
    [{ recipient := A, event := evError, payload := msgMaxHighlights }]
  else
    (roster.filter (fun u => u != A)).map
        (fun u => { recipient := u, event := evHighlightAdded, payload := freshId }) ++
      [{ recipient := A, event := evHighlightConfirmed, payload := freshId }]

/-! ### join-session with the profile store in view, and the HTTP profile
endpoints (book_profiles table) -/

structure JoinData where
  sessionId : String
  participantId : Option String
deriving DecidableEq, Repr

structure BookProfile where
  id : String
  username : String
  color : String
  last_used : Nat
deriving DecidableEq, Repr

/-- The join-session socket handler with the book_profiles store in view.
The handler destructures only sessionId from its payload; whatever
participantId the client sent is never read.  On admission it creates a
user row from a freshly generated profile and a fresh uuid, and it never
touches book_profiles. -/
def joinSessionHandler (limits : Limits) (data : JoinData) (sessionFound : Bool)
    (freshUserId freshUsername freshColor : String) (st : SessionState)
    (profiles : List BookProfile) :
    SessionState × List BookProfile × JoinResult :=
  if sessionFound = false then
    (st, profiles, JoinResult.sessionNotFound)
  else if st.user_count ≥ (limits.USER.MAX_CONCURRENT_PER_SESSION : Int) then
    (st, profiles, JoinResult.sessionFull)
  else
    ({ user_count := st.user_count + 1, roster := freshUserId :: st.roster },
     profiles, JoinResult.admitted freshUserId)

/-- PUT /api/books/:bookId/profiles/:profileId/use — the only place that
refreshes last_used: UPDATE book_profiles SET last_used = CURRENT_TIMESTAMP
WHERE id = profileId; responds 404 when this.changes = 0. -/
def profileUseHandler (profiles : List BookProfile) (profileId : String) (now : Nat) :
    List BookProfile × Bool :=
  (profiles.map (fun p => if p.id == profileId then { p with last_used := now } else p),
   profiles.any (fun p => p.id == profileId))

/-! ### Helper lemmas -/

theorem filter_ne_of_not_mem (l : List String) (a : String) (h : a ∉ l) :
    l.filter (fun u => u != a) = l := by
  induction l with
  | nil => rfl
  | cons b t ih =>
      simp only [List.mem_cons, not_or] at h
      simp [List.filter_cons, ih h.2, bne_iff_ne, Ne.symm h.1]

theorem length_filter_ne_of_mem (l : List String) (a : String) (hn : l.Nodup)
    (hm : a ∈ l) : (l.filter (fun u => u != a)).length = l.length - 1 := by
  induction l with
  | nil => cases hm
  | cons b t ih =>
      rw [List.nodup_cons] at hn
      by_cases hb : b = a
      · subst hb
        simp [List.filter_cons, filter_ne_of_not_mem t b hn.1]
      · have hmt : a ∈ t := by
          rcases List.mem_cons.mp hm with h | h
          · exact absurd h.symm hb
          · exact h
        have hpos : 0 < t.length := List.length_pos_of_mem hmt
        have hba : (b != a) = true := bne_iff_ne.mpr hb
        simp only [List.filter_cons, hba, if_true, List.length_cons, ih hn.2 hmt]
        omega

theorem reachable_full_invariant (limits : Limits) (st : SessionState)
    (h : Reachable limits st) :
    st.user_count = (st.roster.length : Int) ∧
      st.user_count ≤ (limits.USER.MAX_CONCURRENT_PER_SESSION : Int) ∧
      st.roster.Nodup := by
  induction h with
  | init =>
      refine ⟨rfl, ?_, List.nodup_nil⟩
      show (0 : Int) ≤ _
      exact Int.natCast_nonneg _
  | join st uid hr hfresh ih =>
      obtain ⟨h1, h2, h3⟩ := ih
      simp only [joinSessionAtomic]
      split
      · exact ⟨h1, h2, h3⟩
      · rename_i hfull
        refine ⟨?_, ?_, List.nodup_cons.mpr ⟨hfresh, h3⟩⟩
        · show st.user_count + 1 = ((uid :: st.roster).length : Int)
          simp only [List.length_cons]
          omega
        · show st.user_count + 1 ≤ _
          omega
  | leave st uid hr hmem ih =>
      obtain ⟨h1, h2, h3⟩ := ih
      have hlen := length_filter_ne_of_mem st.roster uid h3 hmem
      have hpos : 0 < st.roster.length := List.length_pos_of_mem hmem
      simp only [disconnectHandler]
      refine ⟨?_, ?_, List.Nodup.filter _ h3⟩
      · rw [hlen]; omega
      · omega

theorem fanout_filter_originator (l : List String) (A ev fid : String) :
    ((l.filter (fun u => u != A)).map
        (fun u => ({ recipient := u, event := ev, payload := fid } : Emission))).filter
      (fun e => e.recipient == A) = [] := by
  induction l with
  | nil => rfl
  | cons b t ih =>
      by_cases hb : b = A
      · simp [List.filter_cons, hb, ih]
      · simp [List.filter_cons, hb, ih]

theorem fanout_filter_absent (l : List String) (A B ev fid : String) (hB : B ∉ l) :
    ((l.filter (fun u => u != A)).map
        (fun u => ({ recipient := u, event := ev, payload := fid } : Emission))).filter
      (fun e => e.recipient == B) = [] := by
  induction l with
  | nil => rfl
  | cons b t ih =>
      simp only [List.mem_cons, not_or] at hB
      by_cases hb : b = A
      · simp [List.filter_cons, hb, ih hB.2]
      · simp [List.filter_cons, hb, ih hB.2, Ne.symm hB.1]

theorem fanout_filter_member (l : List String) (A B ev fid : String)
    (hn : l.Nodup) (hB : B ∈ l) (hBA : B ≠ A) :
    ((l.filter (fun u => u != A)).map
        (fun u => ({ recipient := u, event := ev, payload := fid } : Emission))).filter
      (fun e => e.recipient == B) =
      [{ recipient := B, event := ev, payload := fid }] := by
  induction l with
  | nil => cases hB
  | cons b t ih =>
      rw [List.nodup_cons] at hn
      by_cases hb : b = B
      · subst hb
        simp [List.filter_cons, hBA, fanout_filter_absent t A b ev fid hn.1]
      · have hBt : B ∈ t := by
          rcases List.mem_cons.mp hB with h | h
          · exact absurd h.symm hb
          · exact h
        by_cases hbA : b = A
        · simp [List.filter_cons, hbA, ih hn.2 hBt]
        · simp [List.filter_cons, hbA, hb, ih hn.2 hBt]

/-! ### Claim theorems -/

/-- Claim C1: the quota check and the count increment of the join-session
handler are separated by suspension points, so two logically concurrent
joins against a session with exactly one free production slot can both pass
the check before either increment runs: the schedule in which both db.get
callbacks fire first admits both requests and drives user_count to 6,
above the limit of 5.  This refutes the claimed atomic check-and-increment
(the spec itself flags a non-atomic check-then-act here as a correctness bug). -/
theorem join_race_admits_both :
    joinRaceFinal.phases = [ReqPhase.admitted, ReqPhase.admitted] ∧
    joinRaceFinal.session.user_count = 6 ∧
    ((getCurrentLimits Env.production).USER.MAX_CONCURRENT_PER_SESSION : Int) = 5 ∧
    joinRaceFinal.session.user_count >
      ((getCurrentLimits Env.production).USER.MAX_CONCURRENT_PER_SESSION : Int) := by
  decide

/-- Claim C2: along every sequence of complete (uninterleaved) join-session
and disconnect handler runs, the stored user_count equals the roster size
and never exceeds the configured MAX_CONCURRENT_PER_SESSION. -/
theorem session_count_invariant (limits : Limits) (st : SessionState)
    (h : Reachable limits st) :
    st.user_count = (st.roster.length : Int) ∧
      st.user_count ≤ (limits.USER.MAX_CONCURRENT_PER_SESSION : Int) :=
  ⟨(reachable_full_invariant limits st h).1,
   (reachable_full_invariant limits st h).2.1⟩

/-- Witness for C2: the invariant instantiated at the state reached by one
admitted join on a fresh production session. -/
theorem session_count_invariant_witness :
    (joinSessionAtomic (getCurrentLimits Env.production)
          { user_count := 0, roster := [] } ("u1")).1.user_count =
      (((joinSessionAtomic (getCurrentLimits Env.production)
          { user_count := 0, roster := [] } ("u1")).1.roster.length : Int)) ∧
    (joinSessionAtomic (getCurrentLimits Env.production)
          { user_count := 0, roster := [] } ("u1")).1.user_count ≤
      ((getCurrentLimits Env.production).USER.MAX_CONCURRENT_PER_SESSION : Int) :=
  session_count_invariant (getCurrentLimits Env.production) _
    (Reachable.join { user_count := 0, roster := [] } ("u1") Reachable.init
      (List.not_mem_nil _))

/-- Claim C3 counterexample: the POST progress handler persists every report
(INSERT OR IGNORE followed by an unconditional UPDATE), so the stored values
after the sequence [10, 5, 40, 30, 55] are [10, 5, 40, 30, 55], not the
claimed high-water marks [10, 10, 40, 40, 55]; and the update-progress
socket handler broadcasts the regressive report 5 to peers. -/
theorem progress_sequence_cex :
    progressHistory [10, 5, 40, 30, 55] none =
      [some 10, some 5, some 40, some 30, some 55] ∧
    progressHistory [10, 5, 40, 30, 55] none ≠
      [some 10, some 10, some 40, some 40, some 55] ∧
    updateProgressSocket (some ("u1")) (some ("s1")) 5 = some (("u1"), 5) := by
  decide

/-- Claim C3 amended: progress is last-write-wins, not furthest-only — every
report overwrites the stored row, and the socket handler relays every report
of a joined participant to peers with no monotonicity comparison. -/
theorem progress_last_write_wins (stored : Option Int) (p : Int) (uid sid : String) :
    postProgress stored p = some p ∧
    updateProgressSocket (some uid) (some sid) p = some (uid, p) := by
  refine ⟨?_, rfl⟩
  cases stored <;> rfl

/-- Claim C4: the repository documents MAX_REPLY_DEPTH = 2 and a reply-depth
rejection, but the create-comment handler checks only content length and the
per-highlight comment count: with a stored chain of depths 0, 1, 2, a reply
to the depth-2 comment is created (depth 3), never rejected. -/
theorem reply_depth_unchecked :
    commentDepth chainTable 3 ("c2") = some 2 ∧
    (getCurrentLimits Env.development).CONTENT.COMMENTS.MAX_REPLY_DEPTH = 2 ∧
    createCommentHandler (getCurrentLimits Env.development) (some ("u1")) (some ("s1"))
        5 (some ("c2")) 3 false ("c3") =
      CommentResult.created ("c3") (some ("c2")) ∧
    commentDepth (chainTable ++ [(("c3"), some ("c2"))]) 4 ("c3") = some 3 := by
  decide

/-- Claim C5 counterexample: the create-highlight handler acknowledges the
originator with an event named highlight-created, and no emission of a
successful run carries the event name highlight-confirmed. -/
theorem create_highlight_event_name_cex :
    createHighlightEmissions (getCurrentLimits Env.development) ("a")
        [("a"), ("b")] 0 false false ("h1") =
      [{ recipient := ("a"), event := evHighlightCreated, payload := ("h1") },
       { recipient := ("b"), event := evHighlightAdded, payload := ("h1") }] ∧
    ((createHighlightEmissions (getCurrentLimits Env.development) ("a")
          [("a"), ("b")] 0 false false ("h1")).filter
        (fun e => e.event == evHighlightConfirmed)).length = 0 ∧
    evHighlightCreated ≠ evHighlightConfirmed := by
  decide

/-- Claim C5 amended: on a successful create-highlight by A, A receives
exactly one acknowledgement event (named highlight-created by the main
server handler; the add-highlight handler of the second server file names
it highlight-confirmed) and every other roster member receives exactly one
highlight-added event, all carrying the same fresh highlight id. -/
theorem highlight_fanout_amended (limits : Limits) (A B fid : String)
    (roster : List String) (cnt : Nat) (hn : roster.Nodup) (hB : B ∈ roster)
    (hBA : B ≠ A) (hq : cnt < limits.CONTENT.HIGHLIGHTS.MAX_PER_USER_PER_BOOK) :
    (createHighlightEmissions limits A roster cnt false false fid).filter
        (fun e => e.recipient == A) =
      [{ recipient := A, event := evHighlightCreated, payload := fid }] ∧
    (createHighlightEmissions limits A roster cnt false false fid).filter
        (fun e => e.recipient == B) =
      [{ recipient := B, event := evHighlightAdded, payload := fid }] ∧
    (addHighlightEmissions limits.CONTENT.HIGHLIGHTS.MAX_PER_USER_PER_BOOK
          A roster cnt fid).filter (fun e => e.recipient == A) =
      [{ recipient := A, event := evHighlightConfirmed, payload := fid }] ∧
    (addHighlightEmissions limits.CONTENT.HIGHLIGHTS.MAX_PER_USER_PER_BOOK
          A roster cnt fid).filter (fun e => e.recipient == B) =
      [{ recipient := B, event := evHighlightAdded, payload := fid }] := by
  have hqe : highlightQuotaError limits false cnt = none := by
    unfold highlightQuotaError
    rw [if_neg]
    simp only [not_or]
    exact ⟨Bool.false_ne_true, Nat.not_le.mpr hq⟩
  have hne : ¬ cnt ≥ limits.CONTENT.HIGHLIGHTS.MAX_PER_USER_PER_BOOK :=
    Nat.not_le.mpr hq
  unfold createHighlightEmissions addHighlightEmissions
  rw [hqe]
  simp only [Option.isSome_none, Bool.false_eq_true, if_false, if_neg hne]
  refine ⟨?_, ?_, ?_, ?_⟩
  · simp [List.filter_cons, fanout_filter_originator]
  · simp [List.filter_cons, Ne.symm hBA,
      fanout_filter_member roster A B evHighlightAdded fid hn hB hBA]
  · simp [List.filter_append, fanout_filter_originator]
  · simp [List.filter_append, Ne.symm hBA,
      fanout_filter_member roster A B evHighlightAdded fid hn hB hBA]

/-- Witness for the amended C5 at a concrete two-member roster. -/
theorem highlight_fanout_amended_witness :
    (createHighlightEmissions (getCurrentLimits Env.development) ("a")
        [("a"), ("b")] 0 false false ("h1")).filter (fun e => e.recipient == ("a")) =
      [{ recipient := ("a"), event := evHighlightCreated, payload := ("h1") }] ∧
    (createHighlightEmissions (getCurrentLimits Env.development) ("a")
        [("a"), ("b")] 0 false false ("h1")).filter (fun e => e.recipient == ("b")) =
      [{ recipient := ("b"), event := evHighlightAdded, payload := ("h1") }] ∧
    (addHighlightEmissions
          (getCurrentLimits Env.development).CONTENT.HIGHLIGHTS.MAX_PER_USER_PER_BOOK
          ("a") [("a"), ("b")] 0 ("h1")).filter (fun e => e.recipient == ("a")) =
      [{ recipient := ("a"), event := evHighlightConfirmed, payload := ("h1") }] ∧
    (addHighlightEmissions
          (getCurrentLimits Env.development).CONTENT.HIGHLIGHTS.MAX_PER_USER_PER_BOOK
          ("a") [("a"), ("b")] 0 ("h1")).filter (fun e => e.recipient == ("b")) =
      [{ recipient := ("b"), event := evHighlightAdded, payload := ("h1") }] :=
  highlight_fanout_amended (getCurrentLimits Env.development) ("a") ("b") ("h1")
    [("a"), ("b")] 0 (by decide) (by decide) (by decide) (by decide)

/-- Claim C6 counterexample: a disconnect for a participant that is not in
the roster is not a no-op — the DELETE matches no row, yet the callback
(which only tests for a database error) still decrements user_count. -/
theorem leave_unknown_decrements_cex :
    disconnectHandler { user_count := 2, roster := [("u1"), ("u2")] } ("u3") ≠
      { user_count := 2, roster := [("u1"), ("u2")] } ∧
    disconnectHandler { user_count := 2, roster := [("u1"), ("u2")] } ("u3") =
      { user_count := 1, roster := [("u1"), ("u2")] } := by
  decide

/-- Claim C6 amended: leave removes the user row and decrements user_count;
it raises no error for an unknown participant and leaves the roster
unchanged, but it still decrements the count, so it is not an idempotent
no-op on the session state. -/
theorem leave_behavior_amended (st : SessionState) (uid : String) :
    (disconnectHandler st uid).user_count = st.user_count - 1 ∧
    (uid ∉ st.roster → (disconnectHandler st uid).roster = st.roster) ∧
    (st.roster.Nodup → uid ∈ st.roster →
      (disconnectHandler st uid).roster.length = st.roster.length - 1) := by
  refine ⟨rfl, ?_, ?_⟩
  · intro h
    show st.roster.filter (fun u => u != uid) = st.roster
    exact filter_ne_of_not_mem st.roster uid h
  · intro hn hm
    show (st.roster.filter (fun u => u != uid)).length = st.roster.length - 1
    exact length_filter_ne_of_mem st.roster uid hn hm

/-- Witness for the amended C6: a known participant leaving a two-member
session, and an unknown participant leaving it. -/
theorem leave_behavior_amended_witness :
    (disconnectHandler { user_count := 2, roster := [("u1"), ("u2")] } ("u1")).user_count =
      (2 : Int) - 1 ∧
    (disconnectHandler { user_count := 2, roster := [("u1"), ("u2")] } ("u1")).roster.length = 1 ∧
    (disconnectHandler { user_count := 2, roster := [("u1"), ("u2")] } ("u9")).roster =
      [("u1"), ("u2")] :=
  ⟨(leave_behavior_amended { user_count := 2, roster := [("u1"), ("u2")] } ("u1")).1,
   (leave_behavior_amended { user_count := 2, roster := [("u1"), ("u2")] } ("u1")).2.2
     (by decide) (by decide),
   (leave_behavior_amended { user_count := 2, roster := [("u1"), ("u2")] } ("u9")).2.1
     (by decide)⟩

/-- Claim C7 counterexample: a join request carrying the id of a known
profile still results in a freshly generated user — the handler destructures
only sessionId, so the supplied participantId is never consulted, the
admitted user id is the fresh uuid, and the stored profile (including its
last_used timestamp) is untouched. -/
theorem join_ignores_participant_cex :
    joinSessionHandler (getCurrentLimits Env.development)
        { sessionId := ("s1"), participantId := some ("p1") } true
        ("fresh-1") (generateUserProfile 0 0 0).1 (generateUserProfile 0 0 0).2
        { user_count := 0, roster := [] }
        [{ id := ("p1"), username := ("Old Name"), color := ("#4ECDC4"), last_used := 100 }] =
      ({ user_count := 1, roster := [("fresh-1")] },
       [{ id := ("p1"), username := ("Old Name"), color := ("#4ECDC4"), last_used := 100 }],
       JoinResult.admitted ("fresh-1")) ∧
    ("fresh-1") ≠ ("p1") ∧
    (generateUserProfile 0 0 0).1 = ("Cheerful Penguin") := by
  decide

/-- Claim C7 amended: join-session ignores any supplied participantId and
always creates a fresh Participant from the Profile Generator, leaving the
book_profiles store untouched; the last_used refresh exists only on the
separate PUT profile-use endpoint. -/
theorem join_always_generates_profile (limits : Limits) (sid pid fid fu fc : String)
    (found : Bool) (st : SessionState) (profiles : List BookProfile) (now : Nat) :
    joinSessionHandler limits { sessionId := sid, participantId := some pid }
        found fid fu fc st profiles =
      joinSessionHandler limits { sessionId := sid, participantId := none }
        found fid fu fc st profiles ∧
    (joinSessionHandler limits { sessionId := sid, participantId := some pid }
        found fid fu fc st profiles).2.1 = profiles ∧
    (profileUseHandler profiles pid now).1 =
      profiles.map (fun p => if p.id == pid then { p with last_used := now } else p) := by
  refine ⟨rfl, ?_, rfl⟩
  unfold joinSessionHandler
  split
  · rfl
  · split <;> rfl

/-- Claim C8 counterexample: a failed count query and a genuinely reached
quota produce the very same error event — the handlers collapse err and
count ≥ limit into a single branch — so the persistence failure is not
distinguishable from the quota failure by the requesting client. -/
theorem quota_error_indistinct_cex :
    highlightQuotaError (getCurrentLimits Env.development) true 0 =
      highlightQuotaError (getCurrentLimits Env.development) false 100 ∧
    highlightQuotaError (getCurrentLimits Env.development) true 0 = some msgHighlightLimit ∧
    commentQuotaError (getCurrentLimits Env.development) true 0 =
      commentQuotaError (getCurrentLimits Env.development) false 5 ∧
    commentQuotaError (getCurrentLimits Env.development) true 0 = some msgCommentLimit := by
  decide

/-- Claim C8 amended: the quota checks are pure reads that emit a single
error kind — a count-query failure yields exactly the limit-reached error,
and the check passes precisely when the query succeeded and the count is
below the configured ceiling. -/
theorem quota_error_single_kind (limits : Limits) (count : Nat) :
    highlightQuotaError limits true count = some msgHighlightLimit ∧
    (highlightQuotaError limits false count = none ↔
      count < limits.CONTENT.HIGHLIGHTS.MAX_PER_USER_PER_BOOK) ∧
    commentQuotaError limits true count = some msgCommentLimit ∧
    (commentQuotaError limits false count = none ↔
      count < limits.CONTENT.COMMENTS.MAX_PER_HIGHLIGHT) := by
  refine ⟨?_, ?_, ?_, ?_⟩
  · unfold highlightQuotaError
    exact if_pos (Or.inl rfl)
  · unfold highlightQuotaError
    by_cases h : count ≥ limits.CONTENT.HIGHLIGHTS.MAX_PER_USER_PER_BOOK
    · rw [if_pos (Or.inr h)]
      simp
      omega
    · rw [if_neg (not_or.mpr ⟨Bool.false_ne_true, h⟩)]
      simp
      omega
  · unfold commentQuotaError
    exact if_pos (Or.inl rfl)
  · unfold commentQuotaError
    by_cases h : count ≥ limits.CONTENT.COMMENTS.MAX_PER_HIGHLIGHT
    · rw [if_pos (Or.inr h)]
      simp
      omega
    · rw [if_neg (not_or.mpr ⟨Bool.false_ne_true, h⟩)]
      simp
      omega

/-- Claim C9: the comment-length predicate accepts exactly the lengths
between MIN_LENGTH_CHARS and MAX_LENGTH_CHARS inclusive, the create-comment
handler rejects with the length-validation error exactly outside those
bounds, comments of exactly 1 and exactly 500 characters are created, and
shorter or longer ones are rejected without creating a comment. -/
theorem comment_length_inclusive_bounds :
    (∀ len : Nat, validateCommentLength len = true ↔
      (MVP_LIMITS.CONTENT.COMMENTS.MIN_LENGTH_CHARS ≤ len ∧
        len ≤ MVP_LIMITS.CONTENT.COMMENTS.MAX_LENGTH_CHARS)) ∧
    (∀ (limits : Limits) (u s fid : String) (len cnt : Nat) (pid : Option String)
        (qf : Bool),
      createCommentHandler limits (some u) (some s) len pid cnt qf fid =
          CommentResult.lengthInvalid ↔
        (len < limits.CONTENT.COMMENTS.MIN_LENGTH_CHARS ∨
          len > limits.CONTENT.COMMENTS.MAX_LENGTH_CHARS)) ∧
    validateCommentLength 1 = true ∧ validateCommentLength 500 = true ∧
    validateCommentLength 0 = false ∧ validateCommentLength 501 = false ∧
    createCommentHandler (getCurrentLimits Env.development) (some ("u")) (some ("s"))
        1 none 0 false ("cmin") = CommentResult.created ("cmin") none ∧
    createCommentHandler (getCurrentLimits Env.development) (some ("u")) (some ("s"))
        500 none 0 false ("cmax") = CommentResult.created ("cmax") none ∧
    createCommentHandler (getCurrentLimits Env.development) (some ("u")) (some ("s"))
        0 none 0 false ("clow") = CommentResult.lengthInvalid ∧
    createCommentHandler (getCurrentLimits Env.development) (some ("u")) (some ("s"))
        501 none 0 false ("chigh") = CommentResult.lengthInvalid := by
  refine ⟨?_, ?_, by decide, by decide, by decide, by decide, by decide, by decide,
    by decide, by decide⟩
  · intro len
    simp [validateCommentLength, getCurrentLimitsNoArg, getCurrentLimits,
      applyEnvironmentOverrides]
  · intro limits u s fid len cnt pid qf
    simp only [createCommentHandler]
    split_ifs with h1 h2 <;> simp [h1]

/-- Claim C10: every LIMIT_VALIDATORS predicate calls getCurrentLimits with
no argument and therefore decides against the production defaults; for the
environments whose overrides move a ceiling a validator reads (development
and testing move MAX_CONCURRENT_PER_SESSION, testing moves
MAX_PER_USER_PER_BOOK), the validator decision diverges from the limit the
server loaded at startup. -/
theorem validators_ignore_environment :
    (∀ n, validateUserCount n =
      decide (n < MVP_LIMITS.USER.MAX_CONCURRENT_PER_SESSION)) ∧
    (∀ n, validateHighlightCount n =
      decide (n < MVP_LIMITS.CONTENT.HIGHLIGHTS.MAX_PER_USER_PER_BOOK)) ∧
    (∀ n, validateCommentCount n =
      decide (n < MVP_LIMITS.CONTENT.COMMENTS.MAX_PER_HIGHLIGHT)) ∧
    (∀ n, validateCommentLength n =
      decide (MVP_LIMITS.CONTENT.COMMENTS.MIN_LENGTH_CHARS ≤ n ∧
        n ≤ MVP_LIMITS.CONTENT.COMMENTS.MAX_LENGTH_CHARS)) ∧
    (∀ n, validateFileSize n = decide (n ≤ MVP_LIMITS.FILE.MAX_SIZE_BYTES)) ∧
    (∀ n, validateMessageRate n =
      decide (n ≤ MVP_LIMITS.PERFORMANCE.WEBSOCKET.MAX_MESSAGES_PER_SECOND)) ∧
    (getCurrentLimits Env.development).USER.MAX_CONCURRENT_PER_SESSION = 10 ∧
    validateUserCount 7 = false ∧
    7 < (getCurrentLimits Env.development).USER.MAX_CONCURRENT_PER_SESSION ∧
    (getCurrentLimits Env.testing).USER.MAX_CONCURRENT_PER_SESSION = 3 ∧
    validateUserCount 4 = true ∧
    ¬ 4 < (getCurrentLimits Env.testing).USER.MAX_CONCURRENT_PER_SESSION ∧
    (getCurrentLimits Env.testing).CONTENT.HIGHLIGHTS.MAX_PER_USER_PER_BOOK = 10 ∧
    validateHighlightCount 50 = true ∧
    ¬ 50 < (getCurrentLimits Env.testing).CONTENT.HIGHLIGHTS.MAX_PER_USER_PER_BOOK := by
  refine ⟨fun n => rfl, fun n => rfl, fun n => rfl, fun n => rfl, fun n => rfl,
    fun n => rfl, ?_⟩
  decide

end EbookReader
